import Mathlib

/-!
Verification of the MCP inspector agent-orchestration engine.

Shallow embedding of:
- `src/web/lib/tracer.ts` (trace store: tasks, tool calls, model calls),
- `src/{lib,unnamed}/mcpHost.ts` (connection manager / tool invocation gateway),
- `src/web/lib/llmLoop.ts` (`runTaskGenerator`, the event-emitting orchestrator),
- `src/lib/llmLoop.ts` (`runTask` / `runLLMLoop`, the CLI orchestrator).

Conventions of the embedding:
- Wall-clock instants (`Date.now()`, `new Date()`) are natural-number
  milliseconds threaded explicitly: every operation that reads the clock in
  the source takes a `now : Nat` argument, and the durations of external
  awaits (model calls, tool calls) are supplied by the environment trace.
- Generated uuids (`uuidv4().slice(0,8)`) are nondeterministic in the source;
  the embedding takes each fresh id as an explicit argument.
- JS strings that the code slices and measures (`arguments`, `result`) are
  `List Char`; strings used only as opaque identifiers or messages stay
  `String`.
- External calls (Anthropic `messages.create`, MCP `callTool`, connect
  handshakes) are abstracted by outcome values read off an environment trace;
  all orchestrator control flow downstream of those outcomes is translated
  from the source.
- `totalCost` is kept as the exact integer numerator of the cost over 10^6;
  the source computes dollars in binary floating point, which may round, but
  no statement here concerns cost.
-/

namespace MCPInspector

-- ===========================================================================
-- Data model (src/web/lib/types.ts, identical in src/lib/types.ts)
-- ===========================================================================

inductive TaskStatus
  | pending
  | running
  | succeeded
  | failed
  | cancelled
  | timeout
deriving DecidableEq, Repr

inductive ToolCallStatus
  | pending
  | running
  | success
  | error
  | timeout
deriving DecidableEq, Repr

inductive ModelCallType
  | initial
  | toolUse
  | toolResult
  | final
deriving DecidableEq, Repr

structure Task where
  id : String
  createdAt : Nat
  status : TaskStatus
  model : String
  servers : List String
  userMessage : String
  finalAnswer : Option String
  totalInputTokens : Nat
  totalOutputTokens : Nat
  /-- Cost in millionths of a dollar. The source stores dollars as the float
  `(in*3)/1e6 + (out*15)/1e6`; the embedding keeps the exact numerator
  `in*3 + out*15` of that quantity over 10^6 to stay in kernel-reducible
  integers (no claim concerns cost). -/
  totalCost : Option Nat
  startedAt : Option Nat
  finishedAt : Option Nat
  durationMs : Option Int
  errorMessage : Option String
  iterationCount : Nat
deriving DecidableEq, Repr

structure ToolCall where
  id : String
  taskId : String
  serverName : String
  toolName : String
  arguments : List Char
  result : Option (List Char)
  status : ToolCallStatus
  errorMessage : Option String
  startedAt : Nat
  finishedAt : Option Nat
  durationMs : Option Int
  sequenceNumber : Nat
deriving DecidableEq, Repr

structure ModelCall where
  id : String
  taskId : String
  type : ModelCallType
  inputTokens : Nat
  outputTokens : Nat
  durationMs : Nat
  createdAt : Nat
  stopReason : Option String
deriving DecidableEq, Repr

structure AppConfig where
  taskTimeoutMs : Nat
  toolTimeoutMs : Nat
  maxIterations : Nat
  healthCheckIntervalMs : Nat
deriving DecidableEq, Repr

def DEFAULT_CONFIG : AppConfig :=
  { taskTimeoutMs := 300000
    toolTimeoutMs := 30000
    maxIterations := 20
    healthCheckIntervalMs := 30000 }

-- ===========================================================================
-- Trace store (src/web/lib/tracer.ts)
-- ===========================================================================

/-- The three in-memory stores (`_mcp_tasks`, `_mcp_toolCalls`,
`_mcp_modelCalls`), each a map keyed by task id. -/
structure TracerState where
  tasks : String → Option Task
  toolCalls : String → Option (List ToolCall)
  modelCalls : String → Option (List ModelCall)

def TracerState.empty : TracerState :=
  { tasks := fun _ => none, toolCalls := fun _ => none, modelCalls := fun _ => none }

def setTask (st : TracerState) (taskId : String) (t : Task) : TracerState :=
  { st with tasks := fun k => if k = taskId then some t else st.tasks k }

def setToolCallsEntry (st : TracerState) (taskId : String) (l : List ToolCall) :
    TracerState :=
  { st with toolCalls := fun k => if k = taskId then some l else st.toolCalls k }

def setModelCallsEntry (st : TracerState) (taskId : String) (l : List ModelCall) :
    TracerState :=
  { st with modelCalls := fun k => if k = taskId then some l else st.modelCalls k }

/-- `createTask` from tracer.ts; `freshId` stands for `task_${uuidv4().slice(0,8)}`. -/
def createTask (st : TracerState) (freshId : String) (now : Nat)
    (userMessage model : String) (servers : List String) : Task × TracerState :=
  let task : Task :=
    { id := freshId
      createdAt := now
      status := .pending
      model := model
      servers := servers
      userMessage := userMessage
      finalAnswer := none
      totalInputTokens := 0
      totalOutputTokens := 0
      totalCost := none
      startedAt := none
      finishedAt := none
      durationMs := none
      errorMessage := none
      iterationCount := 0 }
  (task,
    setModelCallsEntry (setToolCallsEntry (setTask st freshId task) freshId []) freshId [])

def getTask (st : TracerState) (taskId : String) : Option Task :=
  st.tasks taskId

/-- `updateTask`; the TS `Partial<Task>` spread is rendered as a field-updating
function applied to the stored task. -/
def updateTask (st : TracerState) (taskId : String) (updates : Task → Task) :
    Option Task × TracerState :=
  match st.tasks taskId with
  | none => (none, st)
  | some task =>
    let updatedTask := updates task
    (some updatedTask, setTask st taskId updatedTask)

def startTask (st : TracerState) (taskId : String) (now : Nat) :
    Option Task × TracerState :=
  updateTask st taskId (fun t => { t with status := .running, startedAt := some now })

/-- `completeTask`: recomputes duration from the stored start time and
aggregates tokens/cost by summing the task's recorded model calls. -/
def completeTask (st : TracerState) (taskId : String) (status : TaskStatus)
    (finalAnswer : Option String) (errorMessage : Option String) (now : Nat) :
    Option Task × TracerState :=
  match st.tasks taskId with
  | none => (none, st)
  | some task =>
    let finishedAt := now
    let durationMs : Option Int := task.startedAt.map (fun s => (finishedAt : Int) - s)
    let taskModelCalls := (st.modelCalls taskId).getD []
    let totalInputTokens := (taskModelCalls.map (fun mc => mc.inputTokens)).sum
    let totalOutputTokens := (taskModelCalls.map (fun mc => mc.outputTokens)).sum
    let totalCost : Nat := totalInputTokens * 3 + totalOutputTokens * 15
    updateTask st taskId (fun t =>
      { t with
        status := status
        finalAnswer := finalAnswer
        errorMessage := errorMessage
        finishedAt := some finishedAt
        durationMs := durationMs
        totalInputTokens := totalInputTokens
        totalOutputTokens := totalOutputTokens
        totalCost := some totalCost })

/-- `incrementIteration`: returns the new count, `0` when the task is missing. -/
def incrementIteration (st : TracerState) (taskId : String) : Nat × TracerState :=
  match st.tasks taskId with
  | none => (0, st)
  | some task =>
    let newCount := task.iterationCount + 1
    let (_, st') := updateTask st taskId (fun t => { t with iterationCount := newCount })
    (newCount, st')

/-- `truncateString` from tracer.ts, on the character sequence of the string. -/
def truncateString (s : List Char) (maxLength : Nat) : List Char :=
  if s.length ≤ maxLength then s
  else s.take (maxLength - 3) ++ ['.', '.', '.']

/-- `startToolCall`; `argsStr` stands for `JSON.stringify(args)` and `freshId`
for `tc_${uuidv4().slice(0,8)}`. -/
def startToolCall (st : TracerState) (freshId taskId serverName toolName : String)
    (argsStr : List Char) (now : Nat) : ToolCall × TracerState :=
  let taskToolCalls := (st.toolCalls taskId).getD []
  let toolCall : ToolCall :=
    { id := freshId
      taskId := taskId
      serverName := serverName
      toolName := toolName
      arguments := truncateString argsStr 1000
      result := none
      status := .running
      errorMessage := none
      startedAt := now
      finishedAt := none
      durationMs := none
      sequenceNumber := taskToolCalls.length + 1 }
  (toolCall, setToolCallsEntry st taskId (taskToolCalls ++ [toolCall]))

/-- The `findIndex`-then-assign step of `completeToolCall`: replace the first
element satisfying `p` by its image under `f`, returning it. -/
def updateFirst (p : ToolCall → Bool) (f : ToolCall → ToolCall) :
    List ToolCall → Option ToolCall × List ToolCall
  | [] => (none, [])
  | tc :: rest =>
    if p tc then (some (f tc), f tc :: rest)
    else ((updateFirst p f rest).1, tc :: (updateFirst p f rest).2)

/-- `completeToolCall`; note the TS `result ? truncateString(result, 1000) :
undefined`, under which an empty result string is stored as `undefined`. -/
def completeToolCall (st : TracerState) (toolCallId taskId : String)
    (status : ToolCallStatus) (result : Option (List Char))
    (errorMessage : Option String) (now : Nat) : Option ToolCall × TracerState :=
  match st.toolCalls taskId with
  | none => (none, st)
  | some taskToolCalls =>
    let r := updateFirst (fun tc => tc.id == toolCallId)
      (fun toolCall =>
        { toolCall with
          status := status
          result := match result with
            | some r => if r = [] then none else some (truncateString r 1000)
            | none => none
          errorMessage := errorMessage
          finishedAt := some now
          durationMs := some ((now : Int) - toolCall.startedAt) })
      taskToolCalls
    match r.1 with
    | none => (none, st)
    | some tc => (some tc, setToolCallsEntry st taskId r.2)

def getToolCalls (st : TracerState) (taskId : String) : List ToolCall :=
  (st.toolCalls taskId).getD []

/-- `recordModelCall`: appends a row, never updates existing ones. -/
def recordModelCall (st : TracerState) (freshId taskId : String)
    (type : ModelCallType) (inputTokens outputTokens durationMs : Nat)
    (now : Nat) (stopReason : Option String) : ModelCall × TracerState :=
  let modelCall : ModelCall :=
    { id := freshId
      taskId := taskId
      type := type
      inputTokens := inputTokens
      outputTokens := outputTokens
      durationMs := durationMs
      createdAt := now
      stopReason := stopReason }
  (modelCall,
    setModelCallsEntry st taskId (((st.modelCalls taskId).getD []) ++ [modelCall]))

def getModelCalls (st : TracerState) (taskId : String) : List ModelCall :=
  (st.modelCalls taskId).getD []

-- ===========================================================================
-- Connection manager and tool gateway (mcpHost.ts; src/unnamed/part_001)
-- ===========================================================================

inductive Transport
  | stdio
  | sse
deriving DecidableEq, Repr

/-- `ServerConfig`; the `env` record is read from the process environment and
is outside the model. -/
structure ServerConfig where
  command : String
  args : List String
  transport : Transport
deriving DecidableEq, Repr

inductive ServerStatus
  | connected
  | disconnected
  | error
deriving DecidableEq, Repr

structure Server where
  id : String
  name : String
  config : ServerConfig
  status : ServerStatus
  lastHealthCheck : Option Nat
deriving DecidableEq, Repr

/-- `MCPTool`; the `inputSchema` JSON value is opaque to every operation
modelled here and is omitted. -/
structure MCPTool where
  name : String
  description : Option String
deriving DecidableEq, Repr

structure MCPToolWithServer extends MCPTool where
  serverName : String
  serverId : String
deriving DecidableEq, Repr

structure ServerDefinition where
  id : String
  name : String
  config : ServerConfig
deriving DecidableEq, Repr

/-- `MCP_SERVERS` from src/lib/mcp-servers.ts. -/
def MCP_SERVERS : List ServerDefinition :=
  [ { id := "filesystem"
      name := "Filesystem"
      config :=
        { command := "npx"
          args := ["-y", "@modelcontextprotocol/server-filesystem", "/tmp"]
          transport := .stdio } }
  , { id := "brave-search"
      name := "Brave Search"
      config :=
        { command := "npx"
          args := ["-y", "@modelcontextprotocol/server-brave-search"]
          transport := .stdio } }
  , { id := "notion-mcp"
      name := "Notion MCP"
      config :=
        { command := "node"
          args := ["/Users/alexandredemoura/Desktop/mcp/notion-mcp/dist/server.js"]
          transport := .stdio } } ]

def createServerFromDefinition (defn : ServerDefinition) : Server :=
  { id := defn.id
    name := defn.name
    config := defn.config
    status := .disconnected
    lastHealthCheck := none }

/-- A live session entry of the `connectedServers` map; the SDK `client` and
`transport` handles are external resources with no observable state here. -/
structure ConnectedServer where
  server : Server
  tools : List MCPTool
deriving DecidableEq, Repr

/-- JS `Map` with insertion order: `set` on a present key updates in place,
otherwise appends. -/
def mapSet (m : List (String × ConnectedServer)) (k : String) (v : ConnectedServer) :
    List (String × ConnectedServer) :=
  if m.any (fun p => p.1 == k) then
    m.map (fun p => if p.1 == k then (k, v) else p)
  else m ++ [(k, v)]

def mapGet (m : List (String × ConnectedServer)) (k : String) :
    Option ConnectedServer :=
  (m.find? (fun p => p.1 == k)).map (fun p => p.2)

def mapDelete (m : List (String × ConnectedServer)) (k : String) :
    List (String × ConnectedServer) :=
  m.filter (fun p => p.1 != k)

/-- The module-level `connectedServers` map of mcpHost.ts. -/
structure HostState where
  connectedServers : List (String × ConnectedServer)
deriving DecidableEq, Repr

def HostState.empty : HostState := ⟨[]⟩

/-- Environment outcome of one `client.connect` + `client.listTools` handshake. -/
inductive ConnectOutcome
  | handshake (tools : List MCPTool)
  | failure (msg : String)
deriving DecidableEq, Repr

/-- `connectServer`: transport check, handshake, then store the entry; a
handshake failure throws `Failed to connect to ...` and retains no entry. -/
def connectServer (host : HostState) (defn : ServerDefinition)
    (outcome : ConnectOutcome) (now : Nat) :
    Except String (ConnectedServer × HostState) :=
  let server := createServerFromDefinition defn
  if defn.config.transport ≠ .stdio then
    .error ("Unsupported transport: sse")
  else
    match outcome with
    | .handshake tools =>
      let connectedServer : ConnectedServer :=
        { server := { server with status := .connected, lastHealthCheck := some now }
          tools := tools }
      .ok (connectedServer,
        { host with
          connectedServers := mapSet host.connectedServers defn.id connectedServer })
    | .failure msg =>
      .error ("Failed to connect to " ++ defn.name ++ ": " ++ msg)

/-- `connectServers`: skips already-connected ids and unknown ids, swallows
individual connect failures, returns the successfully connected subset. -/
def connectServers (host : HostState) (serverIds : List String)
    (outcomes : String → ConnectOutcome) (now : Nat) :
    List ConnectedServer × HostState :=
  serverIds.foldl
    (fun acc serverId =>
      let (results, h) := acc
      match mapGet h.connectedServers serverId with
      | some existing =>
        if existing.server.status = .connected then (results ++ [existing], h)
        else
          match MCP_SERVERS.find? (fun s => s.id == serverId) with
          | none => (results, h)
          | some defn =>
            match connectServer h defn (outcomes serverId) now with
            | .ok (c, h') => (results ++ [c], h')
            | .error _ => (results, h)
      | none =>
        match MCP_SERVERS.find? (fun s => s.id == serverId) with
        | none => (results, h)
        | some defn =>
          match connectServer h defn (outcomes serverId) now with
          | .ok (c, h') => (results ++ [c], h')
          | .error _ => (results, h))
    ([], host)

/-- `disconnectServer`: best-effort close, then remove the entry. -/
def disconnectServer (host : HostState) (serverId : String) : HostState :=
  match mapGet host.connectedServers serverId with
  | none => host
  | some _ => { host with connectedServers := mapDelete host.connectedServers serverId }

/-- `disconnectAllServers`: disconnect every key of the map. -/
def disconnectAllServers (host : HostState) : HostState :=
  (host.connectedServers.map (fun p => p.1)).foldl disconnectServer host

/-- `cleanup` from llmLoop.ts (both variants). -/
def cleanup (host : HostState) : HostState :=
  disconnectAllServers host

/-- `getToolsForServers`: tools of the requested connected servers, provider
order then per-provider tool order. -/
def getToolsForServers (host : HostState) (serverIds : List String) :
    List MCPToolWithServer :=
  serverIds.foldl
    (fun tools serverId =>
      match mapGet host.connectedServers serverId with
      | none => tools
      | some connected =>
        tools ++ connected.tools.map (fun t =>
          { toMCPTool := t, serverName := connected.server.name, serverId := serverId }))
    []

/-- `findToolServer`: first connected server whose tool set contains the name. -/
def findToolServer (host : HostState) (toolName : String) : Option ConnectedServer :=
  (host.connectedServers.find?
    (fun p => p.2.tools.any (fun t => t.name == toolName))).map (fun p => p.2)

/-- One item of a `callTool` result `content` array. -/
inductive ToolContentItem
  | text (text : String)
  | other (raw : String)
deriving DecidableEq, Repr

/-- Environment outcome of one `client.callTool` call raced against the
timeout timer. `serialized` stands for `JSON.stringify(content)`. -/
inductive CallToolOutcome
  | timeout
  | throwErr (msg : String)
  | success (content : List ToolContentItem) (serialized : String) (isError : Bool)
  | successNonArray (serialized : String) (isError : Bool)
deriving DecidableEq, Repr

structure ToolResult where
  result : String
  isError : Bool
deriving DecidableEq, Repr

def contentText : ToolContentItem → Option String
  | .text t => some t
  | .other _ => none

/-- `executeTool`: resolves the owner, normalizes not-found, timeout, thrown
and structured outcomes into a `ToolResult`, never throwing. -/
def executeTool (host : HostState) (toolName : String)
    (outcome : CallToolOutcome) (timeoutMs : Nat) : ToolResult :=
  match findToolServer host toolName with
  | none => { result := "Tool not found: " ++ toolName, isError := true }
  | some _ =>
    match outcome with
    | .timeout =>
      { result := "Tool execution failed: Tool execution timed out after "
          ++ toString timeoutMs ++ "ms"
        isError := true }
    | .throwErr msg =>
      { result := "Tool execution failed: " ++ msg, isError := true }
    | .success content serialized isError =>
      let textContent := String.intercalate "\n" (content.filterMap contentText)
      { result := if textContent.isEmpty then serialized else textContent
        isError := isError }
    | .successNonArray serialized isError =>
      { result := serialized, isError := isError }

-- ===========================================================================
-- Web orchestrator (src/web/lib/llmLoop.ts, runTaskGenerator)
-- ===========================================================================

/-- `TaskEvent` from src/web/lib/types.ts; `args` is the opaque serialized
form of the tool-use input record. -/
inductive TaskEvent
  | taskStarted (taskId : String) (timestamp : Nat)
  | llmResponse (content : String) (inputTokens outputTokens durationMs : Nat)
      (hasToolCalls : Bool)
  | toolCallEv (toolCallId serverName toolName : String) (args : String)
      (status : ToolCallStatus) (result : Option String)
      (errorMessage : Option String) (durationMs : Option Nat)
      (isSubToolCall : Bool) (parentToolCallId : Option String)
  | taskCompleted (status : TaskStatus) (finalAnswer : Option String)
      (totalDurationMs totalInputTokens totalOutputTokens : Nat)
  | error (message : String) (code : Option String)
deriving DecidableEq, Repr

/-- One embedded sub-operation of a composite code-execution tool outcome
(consumed by runTaskGenerator as `codeExecResult.toolCalls[i]`). -/
structure SubToolCall where
  toolName : String
  args : String
  status : ToolCallStatus
  result : Option String
  errorMessage : Option String
  durationMs : Option Nat
deriving DecidableEq, Repr

/-- Modelled from the spec: the composite/batched tool outcome
(`CodeExecutionResult`) whose declaration lives in code missing from the
snapshot of src/web/lib/types.ts; runTaskGenerator reads exactly the fields
`toolCalls` and `finalResult` of it. -/
structure CodeExecutionResult where
  toolCalls : List SubToolCall
  finalResult : String
deriving DecidableEq, Repr

/-- One `tool_use` block of a model reply together with the environment's
responses to executing it. `parsed` is the value of `parsedResult` when the
(missing) `isCodeExecutionResult` guard accepts it, `none` otherwise. -/
structure ToolUseReq where
  freshId : String
  name : String
  argsStr : String
  callOutcome : CallToolOutcome
  callDurationMs : Nat
  parsed : Option CodeExecutionResult
deriving DecidableEq, Repr

/-- Environment outcome of one `client.messages.create` await. -/
inductive ModelOutcome
  | throwErr (msg : String)
  | reply (mcId : String) (durationMs inputTokens outputTokens : Nat)
      (textContent : String) (toolUses : List ToolUseReq)
      (stopReason : Option String)
deriving DecidableEq, Repr

/-- The two paired sub-tool-call events emitted for one embedded operation;
the `Math.random` sub id is determinized as parent id + index. -/
def subToolCallEvents (serverName parentId : String) (subs : List SubToolCall) :
    List TaskEvent :=
  (subs.enum).flatMap (fun si =>
    let subId := parentId ++ "-sub-" ++ toString si.1
    let s := si.2
    [ .toolCallEv subId serverName s.toolName s.args .running none none none
        true (some parentId)
    , .toolCallEv subId serverName s.toolName s.args s.status s.result
        s.errorMessage s.durationMs true (some parentId) ])

/-- The body of runTaskGenerator's per-tool-use loop: trace, events and
gateway invocation for one requested tool call. -/
def processToolUse (host : HostState) (taskId : String) (toolTimeoutMs : Nat)
    (tu : ToolUseReq) (st : TracerState) (now : Nat) :
    List TaskEvent × TracerState × Nat :=
  let serverName := ((findToolServer host tu.name).map (fun c => c.server.name)).getD "unknown"
  let (toolCall, st1) :=
    startToolCall st tu.freshId taskId serverName tu.name tu.argsStr.toList now
  let runningEv : TaskEvent :=
    .toolCallEv toolCall.id serverName tu.name tu.argsStr .running none none none
      false none
  let r := executeTool host tu.name tu.callOutcome toolTimeoutMs
  let now1 := now + tu.callDurationMs
  let toolDurationMs := tu.callDurationMs
  match tu.parsed with
  | some codeExecResult =>
    let subEvs := subToolCallEvents serverName toolCall.id codeExecResult.toolCalls
    let (_, st2) := completeToolCall st1 toolCall.id taskId
      (if r.isError then .error else .success)
      (some codeExecResult.finalResult.toList)
      (if r.isError then some r.result else none) now1
    let doneEv : TaskEvent :=
      .toolCallEv toolCall.id serverName tu.name tu.argsStr
        (if r.isError then .error else .success)
        (some codeExecResult.finalResult)
        (if r.isError then some r.result else none)
        (some toolDurationMs) false none
    (runningEv :: subEvs ++ [doneEv], st2, now1)
  | none =>
    let (_, st2) := completeToolCall st1 toolCall.id taskId
      (if r.isError then .error else .success)
      (some r.result.toList)
      (if r.isError then some r.result else none) now1
    let doneEv : TaskEvent :=
      .toolCallEv toolCall.id serverName tu.name tu.argsStr
        (if r.isError then .error else .success)
        (some r.result)
        (if r.isError then some r.result else none)
        (some toolDurationMs) false none
    ([runningEv, doneEv], st2, now1)

/-- `for (const toolUse of toolUses) { ... }` in request order. -/
def processToolUses (host : HostState) (taskId : String) (toolTimeoutMs : Nat) :
    List ToolUseReq → TracerState → Nat → List TaskEvent × TracerState × Nat
  | [], st, now => ([], st, now)
  | tu :: rest, st, now =>
    let (evs1, st1, now1) := processToolUse host taskId toolTimeoutMs tu st now
    let (evs2, st2, now2) := processToolUses host taskId toolTimeoutMs rest st1 now1
    (evs1 ++ evs2, st2, now2)

/-- How the `while` loop of runTaskGenerator was left. `stuck` is a modelling
artifact: the environment trace ran out while the loop still awaited a model
reply. -/
inductive LoopExit
  | completed
  | exhausted
  | threw (msg : String)
  | stuck
deriving DecidableEq, Repr

structure LoopState where
  st : TracerState
  iteration : Nat
  now : Nat
  totalInputTokens : Nat
  totalOutputTokens : Nat

structure LoopOut where
  events : List TaskEvent
  st : TracerState
  now : Nat
  exit : LoopExit

/-- The `while (iteration < maxIterations)` loop of runTaskGenerator, one
environment outcome consumed per pass. Note the guard checks the iteration
count only; no wall-clock condition appears in the source. -/
def genLoop (host : HostState) (taskId : String)
    (maxIterations toolTimeoutMs taskStartTime : Nat) :
    List ModelOutcome → LoopState → LoopOut
  | trace, ls =>
    if ls.iteration < maxIterations then
      match trace with
      | [] => { events := [], st := ls.st, now := ls.now, exit := .stuck }
      | o :: rest =>
        let (iter, st1) := incrementIteration ls.st taskId
        match o with
        | .throwErr msg =>
          { events := [], st := st1, now := ls.now, exit := .threw msg }
        | .reply mcId dur inTok outTok textContent toolUses stopReason =>
          let now1 := ls.now + dur
          let totalIn := ls.totalInputTokens + inTok
          let totalOut := ls.totalOutputTokens + outTok
          let (_, st2) := recordModelCall st1 mcId taskId
            (if iter = 1 then .initial else .toolResult) inTok outTok dur now1
            stopReason
          let llmEv : TaskEvent :=
            .llmResponse textContent inTok outTok dur (toolUses.length > 0)
          if toolUses.length > 0 then
            let (tevs, st3, now2) :=
              processToolUses host taskId toolTimeoutMs toolUses st2 now1
            let res := genLoop host taskId maxIterations toolTimeoutMs taskStartTime
              rest
              { st := st3, iteration := iter, now := now2
                totalInputTokens := totalIn, totalOutputTokens := totalOut }
            { res with events := llmEv :: tevs ++ res.events }
          else if stopReason = some "end_turn" then
            let totalDurationMs := now1 - taskStartTime
            let (_, st3) := completeTask st2 taskId .succeeded (some textContent)
              none now1
            { events := [llmEv,
                .taskCompleted .succeeded (some textContent) totalDurationMs
                  totalIn totalOut]
              st := st3, now := now1, exit := .completed }
          else
            let res := genLoop host taskId maxIterations toolTimeoutMs taskStartTime
              rest
              { st := st2, iteration := iter, now := now1
                totalInputTokens := totalIn, totalOutputTokens := totalOut }
            { res with events := llmEv :: res.events }
    else
      { events := [], st := ls.st, now := ls.now, exit := .exhausted }

/-- Inputs of one run of runTaskGenerator: the options, the defaulted config
and the environment's responses to every external await. -/
structure GenEnv where
  taskFreshId : String
  userMessage : String
  model : Option String
  serverIds : List String
  maxIterations : Option Nat
  toolTimeoutMs : Option Nat
  apiKeyPresent : Bool
  connectOutcomes : String → ConnectOutcome
  trace : List ModelOutcome
  t0 : Nat

inductive RunExit
  | completedExit
  | exhaustedExit
  | failedExit
  | stuckExit
deriving DecidableEq, Repr

structure RunOut where
  events : List TaskEvent
  st : TracerState
  host : HostState
  exit : RunExit

/-- `runTaskGenerator`: create the task, connect, list tools, start, loop;
the enclosing try/catch turns any thrown failure into `completeTask with status failed`
plus one terminal error event. No disconnect of providers occurs anywhere in
this function (the exported `cleanup` is never invoked by it or its caller). -/
def runTaskGenerator (env : GenEnv) (st0 : TracerState) (host0 : HostState) :
    RunOut :=
  let model := env.model.getD "claude-sonnet-4-20250514"
  let maxIterations := env.maxIterations.getD 20
  let toolTimeoutMs := env.toolTimeoutMs.getD 30000
  let taskStartTime := env.t0
  let (task, st1) :=
    createTask st0 env.taskFreshId env.t0 env.userMessage model env.serverIds
  let startedEvs : List TaskEvent := [.taskStarted task.id env.t0]
  let (connected, host1) :=
    connectServers host0 env.serverIds env.connectOutcomes env.t0
  if connected.length = 0 then
    let msg := "No MCP servers could be connected"
    let (_, st2) := completeTask st1 task.id .failed none (some msg) env.t0
    { events := startedEvs ++ [.error msg (some "UNKNOWN_ERROR")]
      st := st2, host := host1, exit := .failedExit }
  else
    let tools := getToolsForServers host1 env.serverIds
    if tools.length = 0 then
      let msg := "No tools available from connected servers"
      let (_, st2) := completeTask st1 task.id .failed none (some msg) env.t0
      { events := startedEvs ++ [.error msg (some "UNKNOWN_ERROR")]
        st := st2, host := host1, exit := .failedExit }
    else
      let (_, st2) := startTask st1 task.id env.t0
      if !env.apiKeyPresent then
        let msg := "ANTHROPIC_API_KEY environment variable is required"
        let (_, st3) := completeTask st2 task.id .failed none (some msg) env.t0
        { events := startedEvs ++ [.error msg (some "UNKNOWN_ERROR")]
          st := st3, host := host1, exit := .failedExit }
      else
        let lo := genLoop host1 task.id maxIterations toolTimeoutMs taskStartTime
          env.trace
          { st := st2, iteration := 0, now := env.t0
            totalInputTokens := 0, totalOutputTokens := 0 }
        match lo.exit with
        | .completed =>
          { events := startedEvs ++ lo.events, st := lo.st, host := host1
            exit := .completedExit }
        | .exhausted =>
          let msg := "Max iterations exceeded"
          let (_, st') := completeTask lo.st task.id .timeout none (some msg) lo.now
          { events := startedEvs ++ lo.events ++ [.error msg (some "MAX_ITERATIONS")]
            st := st', host := host1, exit := .exhaustedExit }
        | .threw msg =>
          let (_, st') := completeTask lo.st task.id .failed none (some msg) lo.now
          { events := startedEvs ++ lo.events ++ [.error msg (some "UNKNOWN_ERROR")]
            st := st', host := host1, exit := .failedExit }
        | .stuck =>
          { events := startedEvs ++ lo.events, st := lo.st, host := host1
            exit := .stuckExit }

-- ===========================================================================
-- CLI orchestrator loop (src/lib/llmLoop.ts, runLLMLoop)
-- ===========================================================================

/-- Does `pat` occur as a contiguous run inside `s`? -/
def hasSubstr : List Char → List Char → Bool
  | s, pat =>
    match s with
    | [] => pat.isEmpty
    | _ :: rest => pat.isPrefixOf s || hasSubstr rest pat

/-- JS `String.prototype.includes` on the character sequences. -/
def includesSubstr (s pat : String) : Bool :=
  hasSubstr s.toList pat.toList

structure CliToolUse where
  freshId : String
  name : String
  argsStr : String
  callOutcome : CallToolOutcome
  callDurationMs : Nat
deriving DecidableEq, Repr

inductive CliModelOutcome
  | throwErr (msg : String)
  | reply (mcId : String) (durationMs inputTokens outputTokens : Nat)
      (textContent : String) (toolUses : List CliToolUse)
      (stopReason : Option String)
deriving DecidableEq, Repr

inductive CliLoopExit
  | returned
  | maxIterReached
  | threw (msg : String)
  | stuck
deriving DecidableEq, Repr

/-- Result of `runLLMLoop`: the stores, the caller's (stale) `task` object
that the loop mutates directly, and how the loop ended. The `task` object
held by `runTask`/`runLLMLoop` is the one built by `createTask`; every
`updateTask` replaces the map entry with a fresh copy, so mutations of this
local object are invisible to the store and vice versa. -/
structure CliLoopOut where
  st : TracerState
  task : Task
  exit : CliLoopExit

def cliProcessToolUses (host : HostState) (taskId : String) (toolTimeoutMs : Nat) :
    List CliToolUse → TracerState → Nat → TracerState × Nat
  | [], st, now => (st, now)
  | tu :: rest, st, now =>
    let serverName :=
      ((findToolServer host tu.name).map (fun c => c.server.name)).getD "unknown"
    let (toolCall, st1) :=
      startToolCall st tu.freshId taskId serverName tu.name tu.argsStr.toList now
    let r := executeTool host tu.name tu.callOutcome toolTimeoutMs
    let now1 := now + tu.callDurationMs
    let (_, st2) := completeToolCall st1 toolCall.id taskId
      (if r.isError then .error else .success)
      (some r.result.toList)
      (if r.isError then some r.result else none) now1
    cliProcessToolUses host taskId toolTimeoutMs rest st2 now1

/-- `runLLMLoop`: the CLI `while (iteration < maxIterations)` loop. The local
`iteration` is an `Int` because the rate-limit catch branch executes
`iteration--` (then `continue`), intending to retry the same iteration;
note the next pass assigns `iteration = incrementIteration(task.id)`, which
re-reads the store and ignores that decrement. -/
def cliRunLLMLoop (host : HostState) (maxIterations toolTimeoutMs : Nat) :
    List CliModelOutcome → TracerState → Task → Int → Nat → CliLoopOut
  | trace, st, task, iteration, now =>
    if iteration < (maxIterations : Int) then
      match trace with
      | [] => { st := st, task := task, exit := .stuck }
      | o :: rest =>
        let (iter, st1) := incrementIteration st task.id
        match o with
        | .throwErr msg =>
          if includesSubstr msg "rate" || includesSubstr msg "429" then
            cliRunLLMLoop host maxIterations toolTimeoutMs rest st1 task
              ((iter : Int) - 1) (now + 5000)
          else { st := st1, task := task, exit := .threw msg }
        | .reply mcId dur inTok outTok textContent toolUses stopReason =>
          let now1 := now + dur
          let (_, st2) := recordModelCall st1 mcId task.id
            (if iter = 1 then .initial else .toolResult) inTok outTok dur now1
            stopReason
          if toolUses.length > 0 then
            let (st3, now2) :=
              cliProcessToolUses host task.id toolTimeoutMs toolUses st2 now1
            cliRunLLMLoop host maxIterations toolTimeoutMs rest st3 task
              (iter : Int) now2
          else if stopReason = some "end_turn" then
            { st := st2
              task := { task with finalAnswer := some textContent, status := .succeeded }
              exit := .returned }
          else if textContent ≠ "" then
            { st := st2
              task := { task with finalAnswer := some textContent, status := .succeeded }
              exit := .returned }
          else { st := st2, task := task, exit := .returned }
    else
      { st := st
        task := { task with
          status := .timeout
          errorMessage :=
            some ("Max iterations (" ++ toString maxIterations ++ ") exceeded") }
        exit := .maxIterReached }

-- ===========================================================================
-- Observables used by the theorems
-- ===========================================================================

/-- The terminal signals of the event stream: `task-completed` or `error`. -/
def isTerminalEvent : TaskEvent → Bool
  | .taskCompleted _ _ _ _ _ => true
  | .error _ _ => true
  | _ => false

def countTerminal (evs : List TaskEvent) : Nat :=
  (evs.filter isTerminalEvent).length

theorem countTerminal_append (a b : List TaskEvent) :
    countTerminal (a ++ b) = countTerminal a + countTerminal b := by
  simp [countTerminal, List.filter_append]

theorem countTerminal_nil : countTerminal [] = 0 := rfl

-- ===========================================================================
-- C8: truncation policy
-- ===========================================================================

/-- C8: a stored ToolCall arguments/result string of length at most 1000 is
kept unmodified; a longer one is stored as exactly 1000 characters ending in
the ellipsis marker. -/
theorem c8_truncation (s : List Char) :
    (s.length ≤ 1000 → truncateString s 1000 = s) ∧
    (1000 < s.length →
      (truncateString s 1000).length = 1000 ∧
      ['.', '.', '.'] <:+ truncateString s 1000) := by
  constructor
  · intro h
    simp [truncateString, h]
  · intro h
    have hneg : ¬ s.length ≤ 1000 := by omega
    refine ⟨?_, ?_⟩
    · simp [truncateString, hneg, List.length_take]
      omega
    · simp only [truncateString, hneg, if_false]
      exact List.suffix_append (s.take 997) ['.', '.', '.']

/-- Witness for C8 at a 500-character and a 5000-character input. -/
theorem c8_truncation_witness :
    truncateString (List.replicate 500 'a') 1000 = List.replicate 500 'a' ∧
    (truncateString (List.replicate 5000 'a') 1000).length = 1000 ∧
    ['.', '.', '.'] <:+ truncateString (List.replicate 5000 'a') 1000 :=
  ⟨(c8_truncation (List.replicate 500 'a')).1
      (by rw [List.length_replicate]; omega),
   ((c8_truncation (List.replicate 5000 'a')).2
      (by rw [List.length_replicate]; omega)).1,
   ((c8_truncation (List.replicate 5000 'a')).2
      (by rw [List.length_replicate]; omega)).2⟩

-- ===========================================================================
-- C10: incrementIteration on a missing task
-- ===========================================================================

/-- C10: when no task exists under the given id, `incrementIteration` returns
0 and leaves every store unchanged; hence the loop counter the orchestrator
takes from its return value stays 0 on every such call. -/
theorem c10_increment_missing_task (st : TracerState) (taskId : String)
    (h : st.tasks taskId = none) :
    incrementIteration st taskId = (0, st) ∧
    ∀ n : Nat, (fun s => (incrementIteration s taskId).2)^[n] st = st := by
  have hstep : incrementIteration st taskId = (0, st) := by
    simp [incrementIteration, h]
  refine ⟨hstep, ?_⟩
  intro n
  induction n with
  | zero => rfl
  | succ k ih =>
    rw [Function.iterate_succ_apply', ih, hstep]

/-- Witness for C10 at the empty store. -/
theorem c10_increment_missing_task_witness :
    incrementIteration TracerState.empty "task_missing" = (0, TracerState.empty) ∧
    ∀ n : Nat,
      (fun s => (incrementIteration s "task_missing").2)^[n] TracerState.empty =
        TracerState.empty :=
  c10_increment_missing_task TracerState.empty "task_missing" rfl

-- ===========================================================================
-- C6: token aggregation at task completion
-- ===========================================================================

/-- C6: after `completeTask`, the stored task's aggregate token fields equal
the sums of the corresponding fields over all ModelCall records of that task. -/
theorem c6_token_aggregation (st : TracerState) (taskId : String)
    (status : TaskStatus) (finalAnswer errorMessage : Option String) (now : Nat)
    (t' : Task)
    (h : (completeTask st taskId status finalAnswer errorMessage now).2.tasks taskId
        = some t') :
    t'.totalInputTokens =
      ((getModelCalls (completeTask st taskId status finalAnswer errorMessage now).2
          taskId).map (fun mc => mc.inputTokens)).sum ∧
    t'.totalOutputTokens =
      ((getModelCalls (completeTask st taskId status finalAnswer errorMessage now).2
          taskId).map (fun mc => mc.outputTokens)).sum := by
  cases htask : st.tasks taskId with
  | none =>
    rw [completeTask] at h
    simp only [htask] at h
    cases h
  | some task =>
    rw [completeTask] at h ⊢
    simp only [htask] at h ⊢
    rw [updateTask] at h ⊢
    simp only [htask, setTask, getModelCalls, if_pos rfl] at h ⊢
    cases h
    exact ⟨rfl, rfl⟩

def c6St : TracerState :=
  let st0 := (createTask TracerState.empty "t1" 0 "hi" "claude-sonnet-4-20250514" ["filesystem"]).2
  let st1 := (startTask st0 "t1" 1).2
  let st2 := (recordModelCall st1 "mc1" "t1" .initial 10 20 5 6 (some "tool_use")).2
  (recordModelCall st2 "mc2" "t1" .toolResult 7 3 5 12 (some "end_turn")).2

/-- The task record stored after completing the C6 example run. -/
def c6Expected : Task :=
  { id := "t1"
    createdAt := 0
    status := .succeeded
    model := "claude-sonnet-4-20250514"
    servers := ["filesystem"]
    userMessage := "hi"
    finalAnswer := some "done"
    totalInputTokens := 17
    totalOutputTokens := 23
    totalCost := some (17 * 3 + 23 * 15)
    startedAt := some 1
    finishedAt := some 20
    durationMs := some 19
    errorMessage := none
    iterationCount := 0 }

/-- Witness for C6: two recorded model calls (10+7 input, 20+3 output tokens),
completed at t=20. -/
theorem c6_token_aggregation_witness :
    c6Expected.totalInputTokens =
      ((getModelCalls (completeTask c6St "t1" .succeeded (some "done") none 20).2
          "t1").map (fun mc => mc.inputTokens)).sum ∧
    c6Expected.totalOutputTokens =
      ((getModelCalls (completeTask c6St "t1" .succeeded (some "done") none 20).2
          "t1").map (fun mc => mc.outputTokens)).sum :=
  c6_token_aggregation c6St "t1" .succeeded (some "done") none 20 c6Expected
    (by decide)

-- ===========================================================================
-- C7: tool-call sequence numbers are 1..N
-- ===========================================================================

/-- One `startToolCall` invocation's arguments, as issued by the orchestrator. -/
structure StartOp where
  freshId : String
  serverName : String
  toolName : String
  argsStr : List Char
  now : Nat

def applyStartOps (taskId : String) (ops : List StartOp) (st : TracerState) :
    TracerState :=
  ops.foldl
    (fun s op =>
      (startToolCall s op.freshId taskId op.serverName op.toolName op.argsStr op.now).2)
    st

theorem startToolCall_spec (st : TracerState)
    (freshId taskId serverName toolName : String) (argsStr : List Char) (now : Nat) :
    (startToolCall st freshId taskId serverName toolName argsStr now).2.toolCalls taskId
      = some (((st.toolCalls taskId).getD []) ++
          [(startToolCall st freshId taskId serverName toolName argsStr now).1]) ∧
    (startToolCall st freshId taskId serverName toolName argsStr now).1.sequenceNumber
      = ((st.toolCalls taskId).getD []).length + 1 ∧
    (startToolCall st freshId taskId serverName toolName argsStr now).2.tasks = st.tasks ∧
    (startToolCall st freshId taskId serverName toolName argsStr now).2.modelCalls
      = st.modelCalls := by
  refine ⟨?_, rfl, rfl, rfl⟩
  simp [startToolCall, setToolCallsEntry]

theorem range'_one_concat (n : Nat) :
    List.range' 1 (n + 1) = List.range' 1 n ++ [n + 1] := by
  have h := @List.range'_concat 1 1 n
  have h2 : 1 + 1 * n = n + 1 := by omega
  rw [h2] at h
  exact h

theorem applyStartOps_seq (taskId : String) :
    ∀ (ops : List StartOp) (st : TracerState) (l : List ToolCall),
      st.toolCalls taskId = some l →
      l.map (fun tc => tc.sequenceNumber) = List.range' 1 l.length →
      ∃ l', (applyStartOps taskId ops st).toolCalls taskId = some l' ∧
        l'.length = l.length + ops.length ∧
        l'.map (fun tc => tc.sequenceNumber) = List.range' 1 l'.length := by
  intro ops
  induction ops with
  | nil =>
    intro st l h hseq
    exact ⟨l, h, by simp, hseq⟩
  | cons op rest ih =>
    intro st l h hseq
    have hread : (st.toolCalls taskId).getD [] = l := by rw [h]; rfl
    obtain ⟨hlist, hseqno, -, -⟩ :=
      startToolCall_spec st op.freshId taskId op.serverName op.toolName op.argsStr op.now
    rw [hread] at hlist hseqno
    have hstep :
        applyStartOps taskId (op :: rest) st =
          applyStartOps taskId rest
            (startToolCall st op.freshId taskId op.serverName op.toolName
              op.argsStr op.now).2 := rfl
    have hseq' :
        (l ++ [(startToolCall st op.freshId taskId op.serverName op.toolName
            op.argsStr op.now).1]).map (fun tc => tc.sequenceNumber) =
          List.range' 1 (l ++ [(startToolCall st op.freshId taskId op.serverName
            op.toolName op.argsStr op.now).1]).length := by
      rw [List.map_append, hseq, List.length_append]
      simp only [List.map_cons, List.map_nil, hseqno, List.length_cons,
        List.length_nil]
      rw [range'_one_concat]
    obtain ⟨l', h1, h2, h3⟩ := ih _ _ hlist hseq'
    refine ⟨l', by rw [hstep]; exact h1, ?_, h3⟩
    rw [h2]
    simp
    omega

/-- C7: starting from task creation, after any sequence of `startToolCall`
operations for that task, the stored ToolCall records' sequenceNumber values
form exactly the sequence 1..N, where N is the number of startToolCall
operations issued. -/
theorem c7_sequence_numbers (st0 : TracerState)
    (taskFreshId userMessage model : String) (servers : List String) (now : Nat)
    (ops : List StartOp) :
    ∃ l',
      (applyStartOps taskFreshId ops
          (createTask st0 taskFreshId now userMessage model servers).2).toolCalls
            taskFreshId = some l' ∧
      l'.length = ops.length ∧
      l'.map (fun tc => tc.sequenceNumber) = List.range' 1 ops.length := by
  have h0 : (createTask st0 taskFreshId now userMessage model servers).2.toolCalls
      taskFreshId = some [] := by
    simp [createTask, setToolCallsEntry, setModelCallsEntry, setTask]
  obtain ⟨l', h1, h2, h3⟩ := applyStartOps_seq taskFreshId ops _ [] h0 (by simp)
  refine ⟨l', h1, by simpa using h2, ?_⟩
  rw [h3, h2]
  simp

-- ===========================================================================
-- C4: completeToolCall called twice with the same id
-- ===========================================================================

theorem updateFirst_of_not_found (p : ToolCall → Bool) (f : ToolCall → ToolCall) :
    ∀ l : List ToolCall, (∀ tc ∈ l, p tc = false) → updateFirst p f l = (none, l) := by
  intro l
  induction l with
  | nil => intro _; rfl
  | cons tc rest ih =>
    intro h
    have hp : p tc = false := h tc (List.mem_cons_self tc rest)
    have hrest := ih (fun x hx => h x (List.mem_cons_of_mem tc hx))
    simp [updateFirst, hp, hrest]

theorem updateFirst_of_found (p : ToolCall → Bool) (f : ToolCall → ToolCall) :
    ∀ (l : List ToolCall) (x : ToolCall),
      (updateFirst p f l).1 = some x → ∃ tc, tc ∈ l ∧ p tc = true ∧ x = f tc := by
  intro l
  induction l with
  | nil => intro x h; cases h
  | cons tc rest ih =>
    intro x h
    by_cases hp : p tc = true
    · rw [updateFirst, if_pos hp] at h
      cases h
      exact ⟨tc, List.mem_cons_self tc rest, hp, rfl⟩
    · rw [updateFirst, if_neg hp] at h
      obtain ⟨tc', htc', hp', hx⟩ := ih x h
      exact ⟨tc', List.mem_cons_of_mem tc htc', hp', hx⟩

/-- The stored-field overwrite `completeToolCall` performs on the entry it
finds (whatever its current status). -/
def completedFields (status : ToolCallStatus) (result : Option (List Char))
    (errorMessage : Option String) (now : Nat) (toolCall : ToolCall) : ToolCall :=
  { toolCall with
    status := status
    result := match result with
      | some r => if r = [] then none else some (truncateString r 1000)
      | none => none
    errorMessage := errorMessage
    finishedAt := some now
    durationMs := some ((now : Int) - toolCall.startedAt) }

theorem completeToolCall_eq_updateFirst (st : TracerState)
    (toolCallId taskId : String) (status : ToolCallStatus)
    (result : Option (List Char)) (errorMessage : Option String) (now : Nat)
    (l : List ToolCall) (h : st.toolCalls taskId = some l) :
    completeToolCall st toolCallId taskId status result errorMessage now =
      match (updateFirst (fun tc => tc.id == toolCallId)
          (completedFields status result errorMessage now) l).1 with
      | none => (none, st)
      | some tc =>
        (some tc,
          setToolCallsEntry st taskId
            (updateFirst (fun tc => tc.id == toolCallId)
              (completedFields status result errorMessage now) l).2) := by
  rw [completeToolCall.eq_def]
  simp only [h]
  rfl

/-- C4 (amended): `completeToolCall` never raises; it is a no-op returning
nothing only when the task has no tool-call list or no entry carries the id;
when an entry with the id exists — in particular on a second call for an
already-finalized id — it finds that entry again and overwrites its status,
result, errorMessage, finishedAt and durationMs with freshly computed values. -/
theorem c4_completeToolCall_refinalizes (st : TracerState)
    (toolCallId taskId : String) (status : ToolCallStatus)
    (result : Option (List Char)) (errorMessage : Option String) (now : Nat) :
    (st.toolCalls taskId = none →
      completeToolCall st toolCallId taskId status result errorMessage now
        = (none, st)) ∧
    (∀ l, st.toolCalls taskId = some l → (∀ tc ∈ l, tc.id ≠ toolCallId) →
      completeToolCall st toolCallId taskId status result errorMessage now
        = (none, st)) ∧
    (∀ tc',
      (completeToolCall st toolCallId taskId status result errorMessage now).1
        = some tc' →
      tc'.status = status ∧
      tc'.errorMessage = errorMessage ∧
      tc'.finishedAt = some now ∧
      tc'.durationMs = some ((now : Int) - tc'.startedAt) ∧
      tc'.result = (match result with
        | some r => if r = [] then none else some (truncateString r 1000)
        | none => none)) := by
  refine ⟨?_, ?_, ?_⟩
  · intro h
    rw [completeToolCall.eq_def]
    simp only [h]
  · intro l hl hnone
    rw [completeToolCall_eq_updateFirst st toolCallId taskId status result
      errorMessage now l hl]
    rw [updateFirst_of_not_found _ _ l
      (fun tc htc => by simpa using hnone tc htc)]
  · intro tc' h
    cases hl : st.toolCalls taskId with
    | none =>
      rw [completeToolCall.eq_def] at h
      simp only [hl] at h
      cases h
    | some l =>
      rw [completeToolCall_eq_updateFirst st toolCallId taskId status result
        errorMessage now l hl] at h
      cases hfind : (updateFirst (fun tc => tc.id == toolCallId)
          (completedFields status result errorMessage now) l).1 with
      | none => rw [hfind] at h; cases h
      | some x =>
        rw [hfind] at h
        have h' : x = tc' := by simpa using h
        subst h'
        obtain ⟨tcOld, -, -, hx⟩ := updateFirst_of_found _ _ l x hfind
        subst hx
        refine ⟨rfl, rfl, rfl, rfl, rfl⟩

-- The concrete double-completion run: one tool call, completed at t=5 with
-- success, then completed again for the same id at t=9 with an error.
def c4St1 : TracerState :=
  (startToolCall (createTask TracerState.empty "t1" 0 "msg" "m" []).2
    "tc1" "t1" "Filesystem" "read_file" "\x7b\x7d".toList 0).2

def c4First : Option ToolCall × TracerState :=
  completeToolCall c4St1 "tc1" "t1" .success (some "ok".toList) none 5

def c4Second : Option ToolCall × TracerState :=
  completeToolCall c4First.2 "tc1" "t1" .error (some "again".toList) (some "boom") 9

/-- The ToolCall record as finalized by the first completion. -/
def c4FirstToolCall : ToolCall :=
  { id := "tc1"
    taskId := "t1"
    serverName := "Filesystem"
    toolName := "read_file"
    arguments := "\x7b\x7d".toList
    result := some "ok".toList
    status := .success
    errorMessage := none
    startedAt := 0
    finishedAt := some 5
    durationMs := some 5
    sequenceNumber := 1 }

/-- The ToolCall record as re-finalized by the second completion. -/
def c4ExpectedToolCall : ToolCall :=
  { id := "tc1"
    taskId := "t1"
    serverName := "Filesystem"
    toolName := "read_file"
    arguments := "\x7b\x7d".toList
    result := some "again".toList
    status := .error
    errorMessage := some "boom"
    startedAt := 0
    finishedAt := some 9
    durationMs := some 9
    sequenceNumber := 1 }

/-- C4 counterexample: the second `completeToolCall` for an already-completed
id does not report nothing-found (it returns the entry) and does not leave
the stored ToolCall unchanged: status flips success→error, and result, error
message, finishedAt and durationMs are all overwritten. -/
theorem c4_counterexample :
    c4First.1.isSome = true ∧
    c4Second.1.isSome = true ∧
    getToolCalls c4First.2 "t1" = [c4FirstToolCall] ∧
    getToolCalls c4Second.2 "t1" = [c4ExpectedToolCall] ∧
    c4FirstToolCall ≠ c4ExpectedToolCall := by
  decide

/-- Witness for the amended C4 at concrete inputs: the missing-task no-op,
the missing-id no-op, and the overwrite performed by the second completion. -/
theorem c4_completeToolCall_refinalizes_witness :
    (completeToolCall TracerState.empty "tcX" "tX" .success none none 0
      = (none, TracerState.empty)) ∧
    (completeToolCall c4St1 "tcZ" "t1" .success none none 3 = (none, c4St1)) ∧
    (c4ExpectedToolCall.status = .error ∧
      c4ExpectedToolCall.errorMessage = some "boom" ∧
      c4ExpectedToolCall.finishedAt = some 9 ∧
      c4ExpectedToolCall.durationMs = some ((9 : Int) - c4ExpectedToolCall.startedAt) ∧
      c4ExpectedToolCall.result = (match some "again".toList with
        | some r => if r = [] then none else some (truncateString r 1000)
        | none => none)) :=
  ⟨(c4_completeToolCall_refinalizes TracerState.empty "tcX" "tX" .success
      none none 0).1 rfl,
   (c4_completeToolCall_refinalizes c4St1 "tcZ" "t1" .success none none 3).2.1
      (getToolCalls c4St1 "t1") (by decide) (by decide),
   (c4_completeToolCall_refinalizes c4First.2 "tc1" "t1" .error
      (some "again".toList) (some "boom") 9).2.2 c4ExpectedToolCall (by decide)⟩

-- ===========================================================================
-- Event-stream lemmas for the web orchestrator
-- ===========================================================================

theorem countTerminal_cons (e : TaskEvent) (l : List TaskEvent) :
    countTerminal (e :: l) =
      (if isTerminalEvent e then 1 else 0) + countTerminal l := by
  simp only [countTerminal, List.filter_cons]
  split <;> simp [Nat.add_comm]

theorem subToolCallEvents_filter (serverName parentId : String)
    (subs : List SubToolCall) :
    (subToolCallEvents serverName parentId subs).filter isTerminalEvent = [] := by
  rw [List.filter_eq_nil_iff]
  intro e he
  rw [subToolCallEvents, List.mem_flatMap] at he
  obtain ⟨si, -, hmem⟩ := he
  simp only [List.mem_cons, List.mem_singleton] at hmem
  rcases hmem with h | h | h
  · subst h; simp [isTerminalEvent]
  · subst h; simp [isTerminalEvent]
  · cases h

theorem completeToolCall_preserves (st : TracerState) (toolCallId taskId : String)
    (status : ToolCallStatus) (result : Option (List Char))
    (errorMessage : Option String) (now : Nat) :
    (completeToolCall st toolCallId taskId status result errorMessage now).2.tasks
      = st.tasks ∧
    (completeToolCall st toolCallId taskId status result errorMessage now).2.modelCalls
      = st.modelCalls := by
  rw [completeToolCall.eq_def]
  cases h : st.toolCalls taskId with
  | none => exact ⟨rfl, rfl⟩
  | some l =>
    dsimp only
    split
    · exact ⟨rfl, rfl⟩
    · exact ⟨rfl, rfl⟩

theorem processToolUse_spec (host : HostState) (taskId : String)
    (toolTimeoutMs : Nat) (tu : ToolUseReq) (st : TracerState) (now : Nat) :
    countTerminal (processToolUse host taskId toolTimeoutMs tu st now).1 = 0 ∧
    (processToolUse host taskId toolTimeoutMs tu st now).2.1.tasks = st.tasks ∧
    (processToolUse host taskId toolTimeoutMs tu st now).2.1.modelCalls
      = st.modelCalls := by
  rw [processToolUse]
  cases hp : tu.parsed with
  | some cer =>
    refine ⟨?_, ?_, ?_⟩
    · simp [countTerminal, List.filter_cons, List.filter_append, isTerminalEvent,
        subToolCallEvents_filter]
    · exact (completeToolCall_preserves _ _ _ _ _ _ _).1
    · exact (completeToolCall_preserves _ _ _ _ _ _ _).2
  | none =>
    refine ⟨?_, ?_, ?_⟩
    · simp [countTerminal, List.filter_cons, isTerminalEvent]
    · exact (completeToolCall_preserves _ _ _ _ _ _ _).1
    · exact (completeToolCall_preserves _ _ _ _ _ _ _).2

theorem processToolUses_spec (host : HostState) (taskId : String)
    (toolTimeoutMs : Nat) :
    ∀ (tus : List ToolUseReq) (st : TracerState) (now : Nat),
      countTerminal (processToolUses host taskId toolTimeoutMs tus st now).1 = 0 ∧
      (processToolUses host taskId toolTimeoutMs tus st now).2.1.tasks = st.tasks ∧
      (processToolUses host taskId toolTimeoutMs tus st now).2.1.modelCalls
        = st.modelCalls := by
  intro tus
  induction tus with
  | nil => intro st now; exact ⟨rfl, rfl, rfl⟩
  | cons tu rest ih =>
    intro st now
    rw [processToolUses]
    obtain ⟨h1, h2, h3⟩ := processToolUse_spec host taskId toolTimeoutMs tu st now
    obtain ⟨h1', h2', h3'⟩ := ih (processToolUse host taskId toolTimeoutMs tu st now).2.1
      (processToolUse host taskId toolTimeoutMs tu st now).2.2
    refine ⟨?_, ?_, ?_⟩
    · rw [countTerminal_append] at *
      simp only [countTerminal_append, h1, h1']
    · rw [h2', h2]
    · rw [h3', h3]

theorem genLoop_terminal_count (host : HostState) (taskId : String)
    (mi tt ts : Nat) :
    ∀ (trace : List ModelOutcome) (ls : LoopState),
      countTerminal (genLoop host taskId mi tt ts trace ls).events =
        (if (genLoop host taskId mi tt ts trace ls).exit = .completed
          then 1 else 0) := by
  intro trace
  induction trace with
  | nil =>
    intro ls
    rw [genLoop]
    by_cases h : ls.iteration < mi <;> simp [h, countTerminal]
  | cons o rest ih =>
    intro ls
    rw [genLoop]
    by_cases h : ls.iteration < mi
    · simp only [if_pos h]
      cases o with
      | throwErr msg => simp [countTerminal]
      | reply mcId dur inT outT text toolUses stopReason =>
        by_cases htools : toolUses.length > 0
        · simp only [htools, if_pos, if_true]
          simp only [countTerminal_cons, countTerminal_append]
          rw [(processToolUses_spec host taskId tt toolUses _ _).1, ih]
          simp [isTerminalEvent]
        · simp only [htools, if_false, if_neg]
          by_cases hstop : stopReason = some "end_turn"
          · simp [hstop, countTerminal, isTerminalEvent, List.filter_cons]
          · simp only [hstop, if_false, if_neg]
            rw [countTerminal_cons, ih]
            simp [isTerminalEvent]
    · simp [h, countTerminal]

-- ===========================================================================
-- C5: exactly one terminal event per run
-- ===========================================================================

theorem createTask_fst_id (st : TracerState) (freshId : String) (now : Nat)
    (userMessage model : String) (servers : List String) :
    (createTask st freshId now userMessage model servers).1.id = freshId := rfl

/-- C5: every run of runTaskGenerator whose environment trace suffices to
finish (the run is not cut off mid-await) emits exactly one terminal signal:
one `task-completed` or one terminal `error` event, on every exit path. -/
theorem c5_single_terminal (env : GenEnv) (st0 : TracerState) (host0 : HostState)
    (h : (runTaskGenerator env st0 host0).exit ≠ .stuckExit) :
    countTerminal (runTaskGenerator env st0 host0).events = 1 := by
  rw [runTaskGenerator] at h ⊢
  simp only [createTask_fst_id] at h ⊢
  by_cases hc : (connectServers host0 env.serverIds env.connectOutcomes env.t0).1.length = 0
  · simp only [hc, if_pos, if_true] at h ⊢
    simp [countTerminal, isTerminalEvent, List.filter_append, List.filter_cons]
  · simp only [hc, if_false, if_neg] at h ⊢
    by_cases htools :
        (getToolsForServers
          (connectServers host0 env.serverIds env.connectOutcomes env.t0).2
          env.serverIds).length = 0
    · simp only [htools, if_pos, if_true] at h ⊢
      simp [countTerminal, isTerminalEvent, List.filter_append, List.filter_cons]
    · simp only [htools, if_false, if_neg] at h ⊢
      by_cases hkey : env.apiKeyPresent
      · simp only [hkey, Bool.not_true, if_neg, Bool.false_eq_true, if_false] at h ⊢
        have hterm := genLoop_terminal_count
          (connectServers host0 env.serverIds env.connectOutcomes env.t0).2
          env.taskFreshId (env.maxIterations.getD 20) (env.toolTimeoutMs.getD 30000)
          env.t0 env.trace
          { st := (startTask (createTask st0 env.taskFreshId env.t0 env.userMessage
              (env.model.getD "claude-sonnet-4-20250514") env.serverIds).2
              env.taskFreshId env.t0).2
            iteration := 0, now := env.t0
            totalInputTokens := 0, totalOutputTokens := 0 }
        set lo := genLoop
          (connectServers host0 env.serverIds env.connectOutcomes env.t0).2
          env.taskFreshId (env.maxIterations.getD 20) (env.toolTimeoutMs.getD 30000)
          env.t0 env.trace
          { st := (startTask (createTask st0 env.taskFreshId env.t0 env.userMessage
              (env.model.getD "claude-sonnet-4-20250514") env.serverIds).2
              env.taskFreshId env.t0).2
            iteration := 0, now := env.t0
            totalInputTokens := 0, totalOutputTokens := 0 } with hlo
        cases hexit : lo.exit with
        | completed =>
          simp [hexit, countTerminal] at hterm
          simp [hexit, countTerminal_append, countTerminal, isTerminalEvent,
            List.filter_append, hterm]
        | exhausted =>
          simp [hexit, countTerminal] at hterm
          simp [hexit, countTerminal_append, countTerminal, isTerminalEvent,
            List.filter_append, hterm]
          exact hterm
        | threw msg =>
          simp [hexit, countTerminal] at hterm
          simp [hexit, countTerminal_append, countTerminal, isTerminalEvent,
            List.filter_append, hterm]
          exact hterm
        | stuck =>
          rw [hexit] at h
          simp at h
      · simp only [hkey, if_pos, Bool.not_false, if_true] at h ⊢
        simp [countTerminal, isTerminalEvent, List.filter_append, List.filter_cons]

def c5Env : GenEnv :=
  { taskFreshId := "t1"
    userMessage := "list files"
    model := none
    serverIds := ["filesystem"]
    maxIterations := none
    toolTimeoutMs := none
    apiKeyPresent := true
    connectOutcomes := fun _ => .handshake [{ name := "read_file", description := none }]
    trace := [.reply "mc1" 100 10 5 "done" [] (some "end_turn")]
    t0 := 0 }

/-- Witness for C5: a concrete one-iteration successful run. -/
theorem c5_single_terminal_witness :
    countTerminal (runTaskGenerator c5Env TracerState.empty HostState.empty).events
      = 1 :=
  c5_single_terminal c5Env TracerState.empty HostState.empty (by decide)

-- ===========================================================================
-- Iteration-count lemmas for the web orchestrator
-- ===========================================================================

theorem setTask_lookup_self (st : TracerState) (taskId : String) (t : Task) :
    (setTask st taskId t).tasks taskId = some t := by
  simp [setTask]

theorem incrementIteration_spec (st : TracerState) (taskId : String) (t : Task)
    (h : st.tasks taskId = some t) :
    incrementIteration st taskId =
      (t.iterationCount + 1,
        setTask st taskId { t with iterationCount := t.iterationCount + 1 }) := by
  rw [incrementIteration]
  simp only [h, updateTask]

theorem completeTask_sets (st : TracerState) (taskId : String)
    (status : TaskStatus) (fa em : Option String) (now : Nat) (t : Task)
    (h : st.tasks taskId = some t) :
    (completeTask st taskId status fa em now).2 =
      setTask st taskId
        { t with
          status := status
          finalAnswer := fa
          errorMessage := em
          finishedAt := some now
          durationMs := t.startedAt.map (fun s => (now : Int) - s)
          totalInputTokens :=
            (((st.modelCalls taskId).getD []).map (fun mc => mc.inputTokens)).sum
          totalOutputTokens :=
            (((st.modelCalls taskId).getD []).map (fun mc => mc.outputTokens)).sum
          totalCost := some
            ((((st.modelCalls taskId).getD []).map (fun mc => mc.inputTokens)).sum * 3
              + (((st.modelCalls taskId).getD []).map
                  (fun mc => mc.outputTokens)).sum * 15) } := by
  rw [completeTask]
  simp only [h, updateTask]

/-- Invariant of the web loop: starting from a stored iteration count equal to
the local counter and within the cap, the stored count never exceeds the cap. -/
theorem genLoop_iteration_invariant (host : HostState) (taskId : String)
    (mi tt ts : Nat) :
    ∀ (trace : List ModelOutcome) (ls : LoopState) (t : Task),
      ls.st.tasks taskId = some t → t.iterationCount = ls.iteration →
      ls.iteration ≤ mi →
      ∃ t', (genLoop host taskId mi tt ts trace ls).st.tasks taskId = some t' ∧
        t'.iterationCount ≤ mi := by
  intro trace
  induction trace with
  | nil =>
    intro ls t h hc hle
    rw [genLoop]
    by_cases hlt : ls.iteration < mi
    · simp only [if_pos hlt]
      exact ⟨t, h, hc ▸ hle⟩
    · simp only [if_neg hlt]
      exact ⟨t, h, hc ▸ hle⟩
  | cons o rest ih =>
    intro ls t h hc hle
    rw [genLoop]
    by_cases hlt : ls.iteration < mi
    · simp only [if_pos hlt]
      rw [incrementIteration_spec ls.st taskId t h]
      cases o with
      | throwErr msg =>
        refine ⟨_, setTask_lookup_self _ _ _, ?_⟩
        show t.iterationCount + 1 ≤ mi
        omega
      | reply mcId dur inT outT text toolUses stopReason =>
        by_cases htools : toolUses.length > 0
        · simp only [htools, if_pos, if_true]
          refine ih _ { t with iterationCount := t.iterationCount + 1 } ?_ ?_ ?_
          · rw [(processToolUses_spec host taskId tt toolUses _ _).2.1]
            exact setTask_lookup_self _ _ _
          · rfl
          · show t.iterationCount + 1 ≤ mi
            omega
        · simp only [htools, if_false, if_neg]
          by_cases hstop : stopReason = some "end_turn"
          · subst hstop
            rw [if_pos rfl]
            have hmid :
                (recordModelCall
                  (setTask ls.st taskId { t with iterationCount := t.iterationCount + 1 })
                  mcId taskId
                  (if t.iterationCount + 1 = 1 then .initial else .toolResult)
                  inT outT dur (ls.now + dur) (some "end_turn")).2.tasks taskId
                = some { t with iterationCount := t.iterationCount + 1 } :=
              setTask_lookup_self _ _ _
            rw [completeTask_sets _ _ _ _ _ _ _ hmid]
            refine ⟨_, setTask_lookup_self _ _ _, ?_⟩
            show t.iterationCount + 1 ≤ mi
            omega
          · simp only [hstop, if_false, if_neg]
            refine ih _ { t with iterationCount := t.iterationCount + 1 } ?_ ?_ ?_
            · exact setTask_lookup_self _ _ _
            · rfl
            · show t.iterationCount + 1 ≤ mi
              omega
    · simp only [if_neg hlt]
      exact ⟨t, h, hc ▸ hle⟩

theorem createTask_lookup (st : TracerState) (freshId : String) (now : Nat)
    (userMessage model : String) (servers : List String) :
    (createTask st freshId now userMessage model servers).2.tasks freshId
      = some (createTask st freshId now userMessage model servers).1 := by
  simp [createTask, setModelCallsEntry, setToolCallsEntry, setTask]

theorem startTask_sets (st : TracerState) (taskId : String) (now : Nat) (t : Task)
    (h : st.tasks taskId = some t) :
    (startTask st taskId now).2 =
      setTask st taskId { t with status := .running, startedAt := some now } := by
  rw [startTask, updateTask]
  simp only [h]

-- ===========================================================================
-- C3 (amended): the loop is guarded by the iteration count alone
-- ===========================================================================

/-- C3 (amended): the web orchestrator's loop body is entered only while
`iterationCount < maxIterations` (default 20) — the stored count never
exceeds the cap — and when the loop exits by exhausting the iteration cap
without natural completion, the task's terminal status is `timeout` and the
final emitted event is the terminal budget-exhaustion error. No wall-clock
condition guards loop entry (see the counterexample theorem). -/
theorem c3_iteration_guard (env : GenEnv) (st0 : TracerState) (host0 : HostState) :
    (∀ t', (runTaskGenerator env st0 host0).st.tasks env.taskFreshId = some t' →
      t'.iterationCount ≤ env.maxIterations.getD 20) ∧
    ((runTaskGenerator env st0 host0).exit = .exhaustedExit →
      (∃ t', (runTaskGenerator env st0 host0).st.tasks env.taskFreshId = some t' ∧
        t'.status = .timeout) ∧
      (runTaskGenerator env st0 host0).events.getLast? =
        some (.error "Max iterations exceeded" (some "MAX_ITERATIONS"))) := by
  rw [runTaskGenerator]
  simp only [createTask_fst_id]
  have hct := createTask_lookup st0 env.taskFreshId env.t0 env.userMessage
    (env.model.getD "claude-sonnet-4-20250514") env.serverIds
  by_cases hc : (connectServers host0 env.serverIds env.connectOutcomes env.t0).1.length = 0
  · simp only [hc, if_pos, if_true]
    rw [completeTask_sets _ _ _ _ _ _ _ hct]
    constructor
    · intro t' ht'
      rw [setTask_lookup_self] at ht'
      cases ht'
      exact Nat.zero_le _
    · intro hx
      cases hx
  · simp only [hc, if_false, if_neg]
    by_cases htools :
        (getToolsForServers
          (connectServers host0 env.serverIds env.connectOutcomes env.t0).2
          env.serverIds).length = 0
    · simp only [htools, if_pos, if_true]
      rw [completeTask_sets _ _ _ _ _ _ _ hct]
      constructor
      · intro t' ht'
        rw [setTask_lookup_self] at ht'
        cases ht'
        exact Nat.zero_le _
      · intro hx
        cases hx
    · simp only [htools, if_false, if_neg]
      by_cases hkey : env.apiKeyPresent
      · simp only [hkey, Bool.not_true, if_neg, Bool.false_eq_true, if_false]
        rw [startTask_sets _ _ _ _ hct]
        have hinv := genLoop_iteration_invariant
          (connectServers host0 env.serverIds env.connectOutcomes env.t0).2
          env.taskFreshId (env.maxIterations.getD 20) (env.toolTimeoutMs.getD 30000)
          env.t0 env.trace
          { st := setTask
              (createTask st0 env.taskFreshId env.t0 env.userMessage
                (env.model.getD "claude-sonnet-4-20250514") env.serverIds).2
              env.taskFreshId
              { (createTask st0 env.taskFreshId env.t0 env.userMessage
                  (env.model.getD "claude-sonnet-4-20250514") env.serverIds).1 with
                status := .running, startedAt := some env.t0 }
            iteration := 0, now := env.t0
            totalInputTokens := 0, totalOutputTokens := 0 }
          { (createTask st0 env.taskFreshId env.t0 env.userMessage
              (env.model.getD "claude-sonnet-4-20250514") env.serverIds).1 with
            status := .running, startedAt := some env.t0 }
          (setTask_lookup_self _ _ _) rfl (Nat.zero_le _)
        obtain ⟨t', hlook, hbound⟩ := hinv
        set lo := genLoop
          (connectServers host0 env.serverIds env.connectOutcomes env.t0).2
          env.taskFreshId (env.maxIterations.getD 20) (env.toolTimeoutMs.getD 30000)
          env.t0 env.trace
          { st := setTask
              (createTask st0 env.taskFreshId env.t0 env.userMessage
                (env.model.getD "claude-sonnet-4-20250514") env.serverIds).2
              env.taskFreshId
              { (createTask st0 env.taskFreshId env.t0 env.userMessage
                  (env.model.getD "claude-sonnet-4-20250514") env.serverIds).1 with
                status := .running, startedAt := some env.t0 }
            iteration := 0, now := env.t0
            totalInputTokens := 0, totalOutputTokens := 0 } with hlo
        cases hexit : lo.exit with
        | completed =>
          constructor
          · intro t'' ht''
            simp only [hexit] at ht''
            rw [hlook] at ht''
            cases ht''
            exact hbound
          · intro hx
            simp only [hexit] at hx
            cases hx
        | exhausted =>
          simp only [hexit]
          rw [completeTask_sets _ _ _ _ _ _ _ hlook]
          refine ⟨?_, ?_⟩
          · intro t'' ht''
            rw [setTask_lookup_self] at ht''
            cases ht''
            exact hbound
          · intro _
            refine ⟨⟨_, setTask_lookup_self _ _ _, rfl⟩, ?_⟩
            exact List.getLast?_concat _
        | threw msg =>
          simp only [hexit]
          rw [completeTask_sets _ _ _ _ _ _ _ hlook]
          constructor
          · intro t'' ht''
            rw [setTask_lookup_self] at ht''
            cases ht''
            exact hbound
          · intro hx
            cases hx
        | stuck =>
          constructor
          · intro t'' ht''
            simp only [hexit] at ht''
            rw [hlook] at ht''
            cases ht''
            exact hbound
          · intro hx
            simp only [hexit] at hx
            cases hx
      · simp only [hkey, if_pos, Bool.not_false, if_true]
        rw [startTask_sets _ _ _ _ hct]
        rw [completeTask_sets _ _ _ _ _ _ _ (setTask_lookup_self _ _ _)]
        constructor
        · intro t' ht'
          rw [setTask_lookup_self] at ht'
          cases ht'
          exact Nat.zero_le _
        · intro hx
          cases hx

def c3Env : GenEnv :=
  { taskFreshId := "t1"
    userMessage := "hi"
    model := none
    serverIds := ["filesystem"]
    maxIterations := some 1
    toolTimeoutMs := none
    apiKeyPresent := true
    connectOutcomes := fun _ => .handshake [{ name := "read_file", description := none }]
    trace := [.reply "mc1" 10 10 5 "thinking" [] (some "max_tokens")]
    t0 := 0 }

/-- The task record stored after the C3 exhaustion run. -/
def c3ExpectedTask : Task :=
  { id := "t1"
    createdAt := 0
    status := .timeout
    model := "claude-sonnet-4-20250514"
    servers := ["filesystem"]
    userMessage := "hi"
    finalAnswer := none
    totalInputTokens := 10
    totalOutputTokens := 5
    totalCost := some 105
    startedAt := some 0
    finishedAt := some 10
    durationMs := some 10
    errorMessage := some "Max iterations exceeded"
    iterationCount := 1 }

/-- Witness for the amended C3: a run with `maxIterations = 1` that exhausts
its budget, ends with stored status `timeout`, count at the cap, and the
budget-exhaustion error as final event. -/
theorem c3_iteration_guard_witness :
    c3ExpectedTask.iterationCount ≤ c3Env.maxIterations.getD 20 ∧
    ((∃ t', (runTaskGenerator c3Env TracerState.empty HostState.empty).st.tasks
        c3Env.taskFreshId = some t' ∧ t'.status = .timeout) ∧
      (runTaskGenerator c3Env TracerState.empty HostState.empty).events.getLast? =
        some (.error "Max iterations exceeded" (some "MAX_ITERATIONS"))) :=
  ⟨(c3_iteration_guard c3Env TracerState.empty HostState.empty).1 c3ExpectedTask
      (by decide),
   (c3_iteration_guard c3Env TracerState.empty HostState.empty).2 (by decide)⟩

def c3CeEnv : GenEnv :=
  { taskFreshId := "t1"
    userMessage := "hi"
    model := none
    serverIds := ["filesystem"]
    maxIterations := none
    toolTimeoutMs := none
    apiKeyPresent := true
    connectOutcomes := fun _ => .handshake [{ name := "read_file", description := none }]
    trace := [.reply "mc1" 400000 10 5 "thinking" [] (some "max_tokens"),
              .reply "mc2" 100 10 5 "done" [] (some "end_turn")]
    t0 := 0 }

/-- C3 counterexample: with the defaulted configuration the loop re-enters
its body although the elapsed wall-clock time already exceeds the default
task timeout. The task starts at clock 0, the first model call alone takes
400000 ms > `DEFAULT_CONFIG.taskTimeoutMs` = 300000 ms, yet a second model
call is still issued (recorded at clock 400100 after a 100 ms call, so it
began at elapsed 400000) and the run completes normally — refuting the claim
that the loop body runs only while the elapsed time is below the task
timeout. -/
theorem c3_counterexample :
    (runTaskGenerator c3CeEnv TracerState.empty HostState.empty).exit
      = .completedExit ∧
    (getModelCalls (runTaskGenerator c3CeEnv TracerState.empty HostState.empty).st
        "t1").map (fun mc => (mc.createdAt, mc.durationMs))
      = [(400000, 400000), (400100, 100)] ∧
    ((runTaskGenerator c3CeEnv TracerState.empty HostState.empty).st.tasks "t1").map
        (fun t => (t.startedAt, t.status))
      = some (some 0, .succeeded) ∧
    DEFAULT_CONFIG.taskTimeoutMs = 300000 ∧
    400100 - 100 > DEFAULT_CONFIG.taskTimeoutMs := by
  decide

-- ===========================================================================
-- C2: providers are not disconnected on exit
-- ===========================================================================

def c2Env : GenEnv :=
  { taskFreshId := "t1"
    userMessage := "list files"
    model := none
    serverIds := ["filesystem"]
    maxIterations := none
    toolTimeoutMs := none
    apiKeyPresent := true
    connectOutcomes := fun _ => .handshake [{ name := "read_file", description := none }]
    trace := [.reply "mc1" 100 10 5 "done" [] (some "end_turn")]
    t0 := 0 }

/-- C2 evaluated at a failing input: after a successful complete run of
runTaskGenerator, the provider connected for the task is still present in the
connected-provider map (no path of the generator or of its route-handler
caller invokes the exported `cleanup`); `disconnectAllServers`, which is what
`cleanup` would run, would have emptied the map. -/
theorem c2_cleanup_never_runs :
    (runTaskGenerator c2Env TracerState.empty HostState.empty).exit
      = .completedExit ∧
    (mapGet (runTaskGenerator c2Env TracerState.empty HostState.empty).host.connectedServers
      "filesystem").isSome = true ∧
    (disconnectAllServers
      (runTaskGenerator c2Env TracerState.empty HostState.empty).host).connectedServers
      = [] := by
  decide

-- ===========================================================================
-- C1: the rate-limit retry consumes the iteration budget
-- ===========================================================================

def c1Host : HostState :=
  ⟨[("filesystem",
    { server :=
        { id := "filesystem"
          name := "Filesystem"
          config :=
            { command := "npx"
              args := ["-y", "@modelcontextprotocol/server-filesystem", "/tmp"]
              transport := .stdio }
          status := .connected
          lastHealthCheck := some 0 }
      tools := [{ name := "read_file", description := none }] })]⟩

def c1Trace : List CliModelOutcome :=
  [ .reply "m1" 100 10 5 "using tool"
      [⟨"tc1", "read_file", "\x7b\x7d", .success [.text "data"] "raw" false, 50⟩]
      (some "tool_use")
  , .reply "m2" 100 10 5 "more"
      [⟨"tc2", "read_file", "\x7b\x7d", .success [.text "data"] "raw" false, 50⟩]
      (some "tool_use")
  , .throwErr "429 rate limit exceeded"
  , .reply "m3" 100 10 5 "the answer" [] (some "end_turn") ]

def c1Run : CliLoopOut :=
  cliRunLLMLoop c1Host 10 30000 c1Trace
    (createTask TracerState.empty "t1" 0 "read stuff" "claude-sonnet-4-20250514"
      ["filesystem"]).2
    (createTask TracerState.empty "t1" 0 "read stuff" "claude-sonnet-4-20250514"
      ["filesystem"]).1
    0 0

/-- C1 evaluated at the failing input: the model call of iteration 3 fails
with a rate-limit signal and the retry succeeds, yet the stored
`iterationCount` after the run is 4, not 3: `incrementIteration` re-reads the
store on the retry pass, so the `iteration--` decrement of the local counter
is discarded and the retry consumes the iteration budget. -/
theorem c1_retry_consumes_budget :
    c1Run.exit = .returned ∧
    c1Run.task.status = .succeeded ∧
    (getTask c1Run.st "t1").map (fun t => t.iterationCount) = some 4 ∧
    ¬ (getTask c1Run.st "t1").map (fun t => t.iterationCount) = some 3 := by
  decide

-- ===========================================================================
-- C9: gateway normalization and loop continuation on tool errors
-- ===========================================================================

/-- C9: `executeTool` never throws and always returns a normalized result:
"tool not found" when no connected provider owns the name, a
timeout-specific message when the timer wins the race, the underlying
message on a provider-level failure; and in the orchestrator loop a tool
invocation (in particular an error result) is fed back and the loop
continues — the run's exit is that of the remaining trace, with the tool's
completion event carrying the normalized result. -/
theorem c9_gateway_normalization (host : HostState) (toolName : String)
    (outcome : CallToolOutcome) (timeoutMs : Nat) :
    (findToolServer host toolName = none →
      executeTool host toolName outcome timeoutMs =
        { result := "Tool not found: " ++ toolName, isError := true }) ∧
    ((findToolServer host toolName).isSome →
      executeTool host toolName .timeout timeoutMs =
        { result := "Tool execution failed: Tool execution timed out after "
            ++ toString timeoutMs ++ "ms"
          isError := true }) ∧
    (∀ msg, (findToolServer host toolName).isSome →
      executeTool host toolName (.throwErr msg) timeoutMs =
        { result := "Tool execution failed: " ++ msg, isError := true }) ∧
    (∀ (taskId : String) (mi ts : Nat) (mcId text : String) (dur inT outT : Nat)
        (sr : Option String) (tu : ToolUseReq) (rest : List ModelOutcome)
        (ls : LoopState),
      ls.iteration < mi → tu.parsed = none →
      ∃ ls' runEv,
        (genLoop host taskId mi timeoutMs ts
            (.reply mcId dur inT outT text [tu] sr :: rest) ls).exit
          = (genLoop host taskId mi timeoutMs ts rest ls').exit ∧
        (genLoop host taskId mi timeoutMs ts
            (.reply mcId dur inT outT text [tu] sr :: rest) ls).events
          = .llmResponse text inT outT dur true :: runEv ::
              (.toolCallEv tu.freshId
                (((findToolServer host tu.name).map
                  (fun c => c.server.name)).getD "unknown")
                tu.name tu.argsStr
                (if (executeTool host tu.name tu.callOutcome timeoutMs).isError
                  then .error else .success)
                (some (executeTool host tu.name tu.callOutcome timeoutMs).result)
                (if (executeTool host tu.name tu.callOutcome timeoutMs).isError
                  then some (executeTool host tu.name tu.callOutcome timeoutMs).result
                  else none)
                (some tu.callDurationMs) false none) ::
              (genLoop host taskId mi timeoutMs ts rest ls').events) := by
  refine ⟨?_, ?_, ?_, ?_⟩
  · intro h
    rw [executeTool.eq_def]
    simp only [h]
  · intro h
    obtain ⟨c, hc⟩ := Option.isSome_iff_exists.mp h
    rw [executeTool.eq_def]
    simp only [hc]
  · intro msg h
    obtain ⟨c, hc⟩ := Option.isSome_iff_exists.mp h
    rw [executeTool.eq_def]
    simp only [hc]
  · intro taskId mi ts mcId text dur inT outT sr tu rest ls hlt hp
    obtain ⟨fid, nm, asr, co, cd, pa⟩ := tu
    replace hp : pa = none := hp
    subst hp
    rw [genLoop]
    rw [if_pos hlt]
    exact ⟨_, _, rfl, rfl⟩

def c9Host : HostState :=
  ⟨[("filesystem",
    { server :=
        { id := "filesystem"
          name := "Filesystem"
          config :=
            { command := "npx"
              args := ["-y", "@modelcontextprotocol/server-filesystem", "/tmp"]
              transport := .stdio }
          status := .connected
          lastHealthCheck := some 0 }
      tools := [{ name := "read_file", description := none }] })]⟩

/-- Witness for C9 at concrete inputs: an unowned tool name, a timed-out and
a throwing invocation of an owned tool, and one loop pass over a timed-out
tool call. -/
theorem c9_gateway_normalization_witness :
    executeTool HostState.empty "nope" .timeout 30000 =
      { result := "Tool not found: nope", isError := true } ∧
    executeTool c9Host "read_file" .timeout 30000 =
      { result := "Tool execution failed: Tool execution timed out after 30000ms"
        isError := true } ∧
    executeTool c9Host "read_file" (.throwErr "boom") 30000 =
      { result := "Tool execution failed: boom", isError := true } ∧
    (∃ ls' runEv,
      (genLoop c9Host "t1" 10 30000 0
          (.reply "mc1" 100 10 5 "calling"
            [⟨"tc1", "read_file", "\x7b\x7d", .timeout, 50, none⟩] (some "tool_use") :: [])
          ⟨TracerState.empty, 0, 0, 0, 0⟩).exit
        = (genLoop c9Host "t1" 10 30000 0 [] ls').exit ∧
      (genLoop c9Host "t1" 10 30000 0
          (.reply "mc1" 100 10 5 "calling"
            [⟨"tc1", "read_file", "\x7b\x7d", .timeout, 50, none⟩] (some "tool_use") :: [])
          ⟨TracerState.empty, 0, 0, 0, 0⟩).events
        = .llmResponse "calling" 10 5 100 true :: runEv ::
            (.toolCallEv "tc1"
              (((findToolServer c9Host "read_file").map
                (fun c => c.server.name)).getD "unknown")
              "read_file" "\x7b\x7d"
              (if (executeTool c9Host "read_file" .timeout 30000).isError
                then .error else .success)
              (some (executeTool c9Host "read_file" .timeout 30000).result)
              (if (executeTool c9Host "read_file" .timeout 30000).isError
                then some (executeTool c9Host "read_file" .timeout 30000).result
                else none)
              (some 50) false none) ::
            (genLoop c9Host "t1" 10 30000 0 [] ls').events) :=
  ⟨(c9_gateway_normalization HostState.empty "nope" .timeout 30000).1 rfl,
   (c9_gateway_normalization c9Host "read_file" .timeout 30000).2.1 (by decide),
   (c9_gateway_normalization c9Host "read_file" .timeout 30000).2.2.1 "boom"
      (by decide),
   (c9_gateway_normalization c9Host "read_file" .timeout 30000).2.2.2
      "t1" 10 0 "mc1" "calling" 100 10 5 (some "tool_use")
      ⟨"tc1", "read_file", "\x7b\x7d", .timeout, 50, none⟩ []
      ⟨TracerState.empty, 0, 0, 0, 0⟩ (by decide) rfl⟩

end MCPInspector
